import Mathlib

/-!
Shallow embedding of `Net/src/SocketImpl.cpp` (POCO socket transport core)
and proofs about its specified behavior.

Conventions of the embedding:
* The native descriptor `_sockfd` is `Option Nat`; `none` stands for
  `POCO_INVALID_SOCKET`.
* Machine integers (`int`, `std::streamsize`, error codes) are `Int`;
  byte counts returned by successful syscalls are `Nat`.
* A C++ function that may throw is embedded as a function returning an
  outcome type that separates a normal return from a raised exception.
* Nondeterministic OS interactions (syscall results, poll readiness,
  elapsed wall time) are passed in explicitly as oracle arguments
  (`SysRes` traces, `Bool` readiness flags, waited durations), so every
  control path the C++ can take corresponds to a choice of oracle value.
* Error-code constants (`POCO_E...`) are the Linux/errno values used by
  the epoll build branch, which is the build the cited lines compile to;
  they come from the external OS errno enumeration (`SocketDefs.h` is not
  part of this repository's sources).
-/

namespace SocketImpl

/-- Exception kinds thrown by the socket layer (Poco exception classes). -/
inductive ExcKind where
  | net
  | io
  | invalidArgument
  | connectionAborted
  | connectionReset
  | timeout
  | connectionRefused
  | invalidSocket
  | notImplemented
deriving DecidableEq, Repr

/-- A raised Poco exception: class, message, argument string, error code. -/
structure Exc where
  kind : ExcKind
  msg : String
  arg : String
  code : Int
deriving DecidableEq, Repr

/-- InvalidSocketException() as thrown by the guards in SocketImpl. -/
def invalidSocketExc : Exc := ⟨.invalidSocket, "", "", 0⟩

/-- TimeoutException(err) as thrown on a timed-out blocking transfer. -/
def timeoutCodeExc (code : Int) : Exc := ⟨.timeout, "", "", code⟩

def POCO_ENOERR : Int := 0
def POCO_ESYSNOTREADY : Int := -4
def POCO_ENOTINIT : Int := -5
def POCO_EINTR : Int := 4
def POCO_EACCES : Int := 13
def POCO_EFAULT : Int := 14
def POCO_EINVAL : Int := 22
def POCO_EMFILE : Int := 24
def POCO_EAGAIN : Int := 11
def POCO_EWOULDBLOCK : Int := 11
def POCO_EINPROGRESS : Int := 115
def POCO_EALREADY : Int := 114
def POCO_ENOTSOCK : Int := 88
def POCO_EDESTADDRREQ : Int := 89
def POCO_EMSGSIZE : Int := 90
def POCO_EPROTOTYPE : Int := 91
def POCO_ENOPROTOOPT : Int := 92
def POCO_EPROTONOSUPPORT : Int := 93
def POCO_ESOCKTNOSUPPORT : Int := 94
def POCO_ENOTSUP : Int := 95
def POCO_EPFNOSUPPORT : Int := 96
def POCO_EAFNOSUPPORT : Int := 97
def POCO_EADDRINUSE : Int := 98
def POCO_EADDRNOTAVAIL : Int := 99
def POCO_ENETDOWN : Int := 100
def POCO_ENETUNREACH : Int := 101
def POCO_ENETRESET : Int := 102
def POCO_ECONNABORTED : Int := 103
def POCO_ECONNRESET : Int := 104
def POCO_ENOBUFS : Int := 105
def POCO_EISCONN : Int := 106
def POCO_ENOTCONN : Int := 107
def POCO_ESHUTDOWN : Int := 108
def POCO_ETIMEDOUT : Int := 110
def POCO_ECONNREFUSED : Int := 111
def POCO_EHOSTDOWN : Int := 112
def POCO_EHOSTUNREACH : Int := 113
def UNIX_EPIPE : Int := 32
def UNIX_EBADF : Int := 9
def UNIX_ENOENT : Int := 2

/-- SocketImpl::error(int code, const std::string& arg): the error
translator.  Returns `none` when the C++ function returns normally
(the `POCO_ENOERR` case) and `some e` when it throws exception `e`.
Direct transliteration of the `switch` at SocketImpl.cpp:1358-1444
(the `POCO_OS_FAMILY_UNIX` cases included). -/
def error (code : Int) (arg : String) : Option Exc :=
  if code = POCO_ENOERR then none
  else if code = POCO_ESYSNOTREADY then some ⟨.net, "Net subsystem not ready", "", code⟩
  else if code = POCO_ENOTINIT then some ⟨.net, "Net subsystem not initialized", "", code⟩
  else if code = POCO_EINTR then some ⟨.io, "Interrupted", "", code⟩
  else if code = POCO_EACCES then some ⟨.io, "Permission denied", "", code⟩
  else if code = POCO_EFAULT then some ⟨.io, "Bad address", "", code⟩
  else if code = POCO_EINVAL then some ⟨.invalidArgument, "", "", code⟩
  else if code = POCO_EMFILE then some ⟨.io, "Too many open files", "", code⟩
  else if code = POCO_EWOULDBLOCK then some ⟨.io, "Operation would block", "", code⟩
  else if code = POCO_EINPROGRESS then some ⟨.io, "Operation now in progress", "", code⟩
  else if code = POCO_EALREADY then some ⟨.io, "Operation already in progress", "", code⟩
  else if code = POCO_ENOTSOCK then some ⟨.io, "Socket operation attempted on non-socket", "", code⟩
  else if code = POCO_EDESTADDRREQ then some ⟨.net, "Destination address required", "", code⟩
  else if code = POCO_EMSGSIZE then some ⟨.net, "Message too long", "", code⟩
  else if code = POCO_EPROTOTYPE then some ⟨.net, "Wrong protocol type", "", code⟩
  else if code = POCO_ENOPROTOOPT then some ⟨.net, "Protocol not available", "", code⟩
  else if code = POCO_EPROTONOSUPPORT then some ⟨.net, "Protocol not supported", "", code⟩
  else if code = POCO_ESOCKTNOSUPPORT then some ⟨.net, "Socket type not supported", "", code⟩
  else if code = POCO_ENOTSUP then some ⟨.net, "Operation not supported", "", code⟩
  else if code = POCO_EPFNOSUPPORT then some ⟨.net, "Protocol family not supported", "", code⟩
  else if code = POCO_EAFNOSUPPORT then some ⟨.net, "Address family not supported", "", code⟩
  else if code = POCO_EADDRINUSE then some ⟨.net, "Address already in use", arg, code⟩
  else if code = POCO_EADDRNOTAVAIL then some ⟨.net, "Cannot assign requested address", arg, code⟩
  else if code = POCO_ENETDOWN then some ⟨.net, "Network is down", "", code⟩
  else if code = POCO_ENETUNREACH then some ⟨.net, "Network is unreachable", "", code⟩
  else if code = POCO_ENETRESET then some ⟨.net, "Network dropped connection on reset", "", code⟩
  else if code = POCO_ECONNABORTED then some ⟨.connectionAborted, "", "", code⟩
  else if code = POCO_ECONNRESET then some ⟨.connectionReset, "", "", code⟩
  else if code = POCO_ENOBUFS then some ⟨.io, "No buffer space available", "", code⟩
  else if code = POCO_EISCONN then some ⟨.net, "Socket is already connected", "", code⟩
  else if code = POCO_ENOTCONN then some ⟨.net, "Socket is not connected", "", code⟩
  else if code = POCO_ESHUTDOWN then some ⟨.net, "Cannot send after socket shutdown", "", code⟩
  else if code = POCO_ETIMEDOUT then some ⟨.timeout, "", "", code⟩
  else if code = POCO_ECONNREFUSED then some ⟨.connectionRefused, "", arg, code⟩
  else if code = POCO_EHOSTDOWN then some ⟨.net, "Host is down", arg, code⟩
  else if code = POCO_EHOSTUNREACH then some ⟨.net, "No route to host", arg, code⟩
  else if code = UNIX_EPIPE then some ⟨.io, "Broken pipe", "", code⟩
  else if code = UNIX_EBADF then some ⟨.io, "Bad socket descriptor", "", code⟩
  else if code = UNIX_ENOENT then some ⟨.io, "Not found", arg, code⟩
  else some ⟨.io, toString code, arg, code⟩

/-- The error codes given an explicit case by the translator's switch
(`POCO_ENOERR` included); every other code falls to the default case. -/
def enumeratedCodes : List Int :=
  [POCO_ENOERR, POCO_ESYSNOTREADY, POCO_ENOTINIT, POCO_EINTR, POCO_EACCES,
   POCO_EFAULT, POCO_EINVAL, POCO_EMFILE, POCO_EWOULDBLOCK, POCO_EINPROGRESS,
   POCO_EALREADY, POCO_ENOTSOCK, POCO_EDESTADDRREQ, POCO_EMSGSIZE,
   POCO_EPROTOTYPE, POCO_ENOPROTOOPT, POCO_EPROTONOSUPPORT,
   POCO_ESOCKTNOSUPPORT, POCO_ENOTSUP, POCO_EPFNOSUPPORT, POCO_EAFNOSUPPORT,
   POCO_EADDRINUSE, POCO_EADDRNOTAVAIL, POCO_ENETDOWN, POCO_ENETUNREACH,
   POCO_ENETRESET, POCO_ECONNABORTED, POCO_ECONNRESET, POCO_ENOBUFS,
   POCO_EISCONN, POCO_ENOTCONN, POCO_ESHUTDOWN, POCO_ETIMEDOUT,
   POCO_ECONNREFUSED, POCO_EHOSTDOWN, POCO_EHOSTUNREACH, UNIX_EPIPE,
   UNIX_EBADF, UNIX_ENOENT]

/-- SELECT_READ from the SocketImpl SelectMode bitmask. -/
def SELECT_READ : Nat := 1

/-- SELECT_WRITE from the SocketImpl SelectMode bitmask. -/
def SELECT_WRITE : Nat := 2

/-- SELECT_ERROR from the SocketImpl SelectMode bitmask. -/
def SELECT_ERROR : Nat := 4

/-- The socket handle state: `_sockfd` (`none` = POCO_INVALID_SOCKET), the
OS-level O_NONBLOCK flag set by fcntl, the cached `_blocking` field, the
broken-timeout capability flag fixed at construction, and the cached
send/receive timeouts (microseconds) used when timeout emulation is active. -/
structure Handle where
  sockfd : Option Nat
  osNonBlocking : Bool
  blocking : Bool
  isBrokenTimeout : Bool
  sndTimeout : Nat
  recvTimeout : Nat
deriving DecidableEq, Repr

/-- SocketImpl::setBlocking(bool flag): sets or clears O_NONBLOCK on the
descriptor and records the flag in `_blocking`. -/
def setBlocking (h : Handle) (flag : Bool) : Handle :=
  { h with osNonBlocking := !flag, blocking := flag }

/-- SocketImpl::getBlocking(): returns the cached `_blocking` field. -/
def getBlocking (h : Handle) : Bool := h.blocking

/-- Result of one transfer-style syscall (send/recv/writev/readv/sendto/
recvfrom/listen/shutdown/setsockopt/...): a non-negative byte count, or
failure with the errno the syscall left in `lastError()`. -/
inductive SysRes where
  | ok (n : Nat)
  | err (code : Int)
deriving DecidableEq, Repr

/-- Outcome of an embedded operation that returns an `int`: a normal
return value, a raised exception, or `incomplete` when the supplied
syscall-oracle trace ran out before the C++ loop exited (used only to
totalize the model; no theorem relies on it). -/
inductive Outcome where
  | ret (n : Int)
  | exc (e : Exc)
  | incomplete
deriving DecidableEq, Repr

/-- Abstraction of SocketImpl::poll as used from inside a transfer
operation: poll first throws InvalidSocketException if the descriptor is
unset, otherwise its readiness result is the oracle `ready`
(the poll loop itself is modelled separately below). -/
def pollCheck (h : Handle) (ready : Bool) : Except Exc Bool :=
  if h.sockfd = none then .error invalidSocketExc else .ok ready

/-- SocketImpl::checkBrokenTimeout(SelectMode mode): when the
broken-timeout flag is set and the stored timeout for the direction is
non-zero, polls with that timeout and throws TimeoutException if not
ready.  Second component records whether poll was invoked. -/
def checkBrokenTimeout (h : Handle) (mode : Nat) (pollReady : Bool) :
    Except Exc Unit × Bool :=
  if h.isBrokenTimeout then
    let timeout := if mode = SELECT_READ then h.recvTimeout else h.sndTimeout
    if timeout ≠ 0 then
      match pollCheck h pollReady with
      | .error e => (.error e, true)
      | .ok ready => (if ready then .ok () else .error ⟨.timeout, "", "", 0⟩, true)
    else (.ok (), false)
  else (.ok (), false)

/-- How the do/while transfer loop exits: a successful syscall, a failing
syscall whose errno stops the loop, or the oracle trace exhausted. -/
inductive LoopExit where
  | ok (n : Nat)
  | fail (code : Int)
  | stuck
deriving DecidableEq, Repr

/-- The retry loop around a transfer syscall:
`do { rc = ::syscall(...); } while (_blocking && rc < 0 && lastError() == POCO_EINTR)`.
Consumes oracle results until the loop exits; also counts the syscalls
performed. -/
def transferLoop (blocking : Bool) : List SysRes → LoopExit × Nat
  | [] => (.stuck, 0)
  | .ok n :: _ => (.ok n, 1)
  | .err c :: rest =>
    if blocking ∧ c = POCO_EINTR then
      let (r, k) := transferLoop blocking rest
      (r, k + 1)
    else (.fail c, 1)

/-- The `if (rc < 0)` error classification shared by sendBytes,
receiveBytes, sendTo and receiveFrom (all buffer forms):
a would-block errno on a non-blocking socket is swallowed (the negative
`rc` is returned), `POCO_EAGAIN`/`POCO_ETIMEDOUT` on a blocking socket
throw TimeoutException(err), anything else goes to the error translator.
A failing syscall returns `rc = -1`. -/
def classifyFail (blocking : Bool) (c : Int) : Outcome :=
  if blocking = false ∧ (c = POCO_EAGAIN ∨ c = POCO_EWOULDBLOCK) then .ret (-1)
  else if c = POCO_EAGAIN ∨ c = POCO_ETIMEDOUT then .exc (timeoutCodeExc c)
  else
    match error c "" with
    | some e => .exc e
    | none => .ret (-1)

/-- Common body of SocketImpl::sendBytes / receiveBytes (single-buffer
and scatter/gather forms) and receiveFrom: broken-timeout pre-poll when
blocking, InvalidSocketException guard inside the loop, EINTR retry loop,
then `classifyFail`.  `mode` is SELECT_WRITE for the send forms and
SELECT_READ for the receive forms. -/
def transferOp (h : Handle) (mode : Nat) (pollReady : Bool)
    (trace : List SysRes) : Outcome :=
  match (if h.blocking then (checkBrokenTimeout h mode pollReady).1 else .ok ()) with
  | .error e => .exc e
  | .ok _ =>
    if h.sockfd = none then .exc invalidSocketExc
    else
      match (transferLoop h.blocking trace).1 with
      | .stuck => .incomplete
      | .ok n => .ret n
      | .fail c => classifyFail h.blocking c

/-- SocketImpl::sendBytes(const void*, int, int). -/
def sendBytes (h : Handle) (pollReady : Bool) (trace : List SysRes) : Outcome :=
  transferOp h SELECT_WRITE pollReady trace

/-- SocketImpl::sendBytes(const SocketBufVec&, int): the scatter/gather
form; identical wrapper structure around writev. -/
def sendBytesVec (h : Handle) (pollReady : Bool) (trace : List SysRes) : Outcome :=
  transferOp h SELECT_WRITE pollReady trace

/-- SocketImpl::receiveBytes(void*, int, int). -/
def receiveBytes (h : Handle) (pollReady : Bool) (trace : List SysRes) : Outcome :=
  transferOp h SELECT_READ pollReady trace

/-- SocketImpl::receiveBytes(SocketBufVec&, int): the scatter/gather
form; identical wrapper structure around readv. -/
def receiveBytesVec (h : Handle) (pollReady : Bool) (trace : List SysRes) : Outcome :=
  transferOp h SELECT_READ pollReady trace

/-- SocketImpl::receiveFrom(void*, int, sockaddr**, poco_socklen_t**, int):
same guard/retry/classify structure around recvmsg; the peer-address
population (done only on `rc >= 0`) is not needed by any claim and is
elided. -/
def receiveFrom (h : Handle) (pollReady : Bool) (trace : List SysRes) : Outcome :=
  transferOp h SELECT_READ pollReady trace

/-- Whether a call to sendBytes invoked the pre-transfer readiness poll:
the call-site guard `if (_blocking) checkBrokenTimeout(SELECT_WRITE)`
composed with checkBrokenTimeout's own guards. -/
def sendBytesPolled (h : Handle) (pollReady : Bool) : Bool :=
  h.blocking && (checkBrokenTimeout h SELECT_WRITE pollReady).2

/-- SocketImpl::sendTo(const void*, int, const SocketAddress&, int):
note that an unset descriptor is lazily initialized via `init(address.af())`
inside the loop (no InvalidSocketException), and there is no
broken-timeout pre-poll.  `newFd` is the descriptor `::socket` would
produce; returns the updated handle and the outcome. -/
def sendTo (h : Handle) (newFd : Nat) (trace : List SysRes) : Handle × Outcome :=
  let h1 := if h.sockfd = none then { h with sockfd := some newFd } else h
  (h1,
    match (transferLoop h1.blocking trace).1 with
    | .stuck => .incomplete
    | .ok n => .ret n
    | .fail c => classifyFail h1.blocking c)

/-- SocketImpl::sendUrgent(unsigned char): InvalidSocketException guard,
one send with MSG_OOB, `error()` on a negative return. -/
def sendUrgent (h : Handle) (res : SysRes) : Except Exc Unit :=
  if h.sockfd = none then .error invalidSocketExc
  else
    match res with
    | .ok _ => .ok ()
    | .err c =>
      match error c "" with
      | some e => .error e
      | none => .ok ()

/-- SocketImpl::listen(int backlog): InvalidSocketException guard, one
::listen call, `error()` on failure. -/
def listen (h : Handle) (res : SysRes) : Except Exc Unit :=
  if h.sockfd = none then .error invalidSocketExc
  else
    match res with
    | .ok _ => .ok ()
    | .err c =>
      match error c "" with
      | some e => .error e
      | none => .ok ()

/-- Common body of SocketImpl::shutdownReceive / shutdownSend / shutdown:
InvalidSocketException guard, one ::shutdown call with the given `how`,
`error()` on failure. -/
def shutdownOp (h : Handle) (how : Nat) (res : SysRes) : Except Exc Unit :=
  if h.sockfd = none then .error invalidSocketExc
  else
    match how, res with
    | _, .ok _ => .ok ()
    | _, .err c =>
      match error c "" with
      | some e => .error e
      | none => .ok ()

/-- SocketImpl::setRawOption: InvalidSocketException guard, one
::setsockopt call, `error()` on failure (all setOption overloads funnel
here). -/
def setRawOption (h : Handle) (level opt : Int) (res : SysRes) : Except Exc Unit :=
  if h.sockfd = none then .error invalidSocketExc
  else
    match level, opt, res with
    | _, _, .ok _ => .ok ()
    | _, _, .err c =>
      match error c "" with
      | some e => .error e
      | none => .ok ()

/-- SocketImpl::getRawOption: InvalidSocketException guard, one
::getsockopt call, `error()` on failure (all getOption overloads funnel
here). -/
def getRawOption (h : Handle) (level opt : Int) (res : SysRes) : Except Exc Unit :=
  if h.sockfd = none then .error invalidSocketExc
  else
    match level, opt, res with
    | _, _, .ok _ => .ok ()
    | _, _, .err c =>
      match error c "" with
      | some e => .error e
      | none => .ok ()

/-- EPOLLIN bit. -/
def EPOLLIN : Nat := 1

/-- EPOLLOUT bit. -/
def EPOLLOUT : Nat := 4

/-- EPOLLERR bit. -/
def EPOLLERR : Nat := 8

/-- The interest registration computed from the requested mask
(`evin.events` in the epoll branch of SocketImpl::poll). -/
def epollEvents (mode : Nat) : Nat :=
  (if mode &&& SELECT_READ ≠ 0 then EPOLLIN else 0) |||
  (if mode &&& SELECT_WRITE ≠ 0 then EPOLLOUT else 0) |||
  (if mode &&& SELECT_ERROR ≠ 0 then EPOLLERR else 0)

/-- Result of one underlying wait (epoll_wait / ::poll / ::select):
ready (`rc > 0`), timed out (`rc == 0`), or failed (`rc < 0`) with the
errno left behind and the wall time the wait consumed (microseconds). -/
inductive WaitRes where
  | ready
  | timedout
  | errres (code : Int) (waitedUs : Nat)
deriving DecidableEq, Repr

/-- How SocketImpl::poll finishes: the readiness boolean `rc > 0`, a
raised exception, or the wait-oracle trace exhausted. -/
inductive PollOutcome where
  | result (ready : Bool)
  | exc (e : Exc)
  | incomplete
deriving DecidableEq, Repr

/-- The wait loop of SocketImpl::poll (identical in the epoll, poll and
select branches): wait with the remaining budget; on an EINTR failure
subtract the elapsed wall time from the remaining budget, saturating at
zero, and re-wait; any other failure leaves the loop and goes to the
error translator (`error()` on a zero errno returns, and the function
then returns `rc > 0`, i.e. false).  `remainingUs` is
`remainingTime` in microseconds (Poco::Timespan resolution). -/
def pollLoop (remainingUs : Nat) : List WaitRes → PollOutcome
  | [] => .incomplete
  | .ready :: _ => .result true
  | .timedout :: _ => .result false
  | .errres c waited :: rest =>
    if c = POCO_EINTR then
      pollLoop (if waited < remainingUs then remainingUs - waited else 0) rest
    else
      match error c "" with
      | some e => .exc e
      | none => .result false

/-- Oracle for one SocketImpl::poll call in the epoll branch: whether
epoll_create and epoll_ctl succeed (with the errno on failure), and the
successive epoll_wait results. -/
structure PollEnv where
  createOk : Bool
  createErrCode : Int
  ctlOk : Bool
  ctlErrCode : Int
  waits : List WaitRes
deriving DecidableEq, Repr

/-- SocketImpl::poll(const Poco::Timespan&, int) — epoll branch:
InvalidSocketException on an unset descriptor, epoll context creation and
interest registration (failures routed through the translator, which can
fall through when it does not throw), then the wait loop. -/
def poll (h : Handle) (timeoutUs : Nat) (mode : Nat) (env : PollEnv) : PollOutcome :=
  if h.sockfd = none then .exc invalidSocketExc
  else
    let _evin := epollEvents mode
    match (if env.createOk then none else error env.createErrCode "Can't create epoll queue") with
    | some e => .exc e
    | none =>
      match (if env.ctlOk then none else error env.ctlErrCode "Can't insert socket to epoll queue") with
      | some e => .exc e
      | none => pollLoop timeoutUs env.waits

/-- The remaining-budget bookkeeping of the poll loop in isolation:
starting from budget `t`, fold the elapsed times of successive
interrupted waits through
`if (waited < remainingTime) remainingTime -= waited; else remainingTime = 0`. -/
def remainingAfter (t : Nat) : List Nat → Nat
  | [] => t
  | w :: ws => remainingAfter (if w < t then t - w else 0) ws

/-- Each elapsed wait stays within the budget the loop passed to that
wait (an OS wait does not overshoot the timeout it was given). -/
def boundedBy (t : Nat) : List Nat → Prop
  | [] => True
  | w :: ws => w ≤ t ∧ boundedBy (t - w) ws

/-- Oracle for SocketImpl::connect(address, timeout): the ::connect
syscall outcome, the readiness-poll result, and the SO_ERROR value read
after the wait. -/
structure ConnEnv where
  connectRes : SysRes
  pollReady : Bool
  soError : Int
deriving DecidableEq, Repr

/-- The try-block body of SocketImpl::connect(address, timeout): issue
::connect; if it fails with anything but EINPROGRESS/EWOULDBLOCK
translate immediately (with the address as context); otherwise wait on
poll(timeout, READ|WRITE|ERROR), throwing TimeoutException on a negative
poll; then read SO_ERROR and translate a non-zero pending error. -/
def connectTimeoutBody (addr : String) (env : ConnEnv) : Option Exc :=
  match env.connectRes with
  | .ok _ => none
  | .err errCode =>
    match (if errCode ≠ POCO_EINPROGRESS ∧ errCode ≠ POCO_EWOULDBLOCK
           then error errCode addr else none) with
    | some e => some e
    | none =>
      if !env.pollReady then some ⟨.timeout, "connect timed out", addr, 0⟩
      else if env.soError ≠ 0 then error env.soError "" else none

/-- SocketImpl::connect(const SocketAddress&, const Poco::Timespan&):
lazily init the descriptor, switch to non-blocking, run the body inside
`try`; the catch handler and the normal path both call setBlocking(true)
before returning/rethrowing.  Returns the final handle and the raised
exception, if any.  `newFd` is the descriptor init would create. -/
def connectTimeout (h : Handle) (addr : String) (newFd : Nat) (env : ConnEnv) :
    Handle × Option Exc :=
  let h0 := if h.sockfd = none then { h with sockfd := some newFd } else h
  let h1 := setBlocking h0 false
  match connectTimeoutBody addr env with
  | some e => (setBlocking h1 true, some e)
  | none => (setBlocking h1 true, none)

/-- The OS view of open descriptors, for the close model. -/
structure OsState where
  openFds : List Nat
deriving DecidableEq, Repr

/-- SocketImpl::close(): if the descriptor is set, close it at the OS and
set the field to POCO_INVALID_SOCKET; otherwise do nothing.  The third
component counts the poco_closesocket calls performed (0 or 1).  The
function contains no throw. -/
def close (h : Handle) (os : OsState) : Handle × OsState × Nat :=
  match h.sockfd with
  | some fd => ({ h with sockfd := none }, ⟨os.openFds.erase fd⟩, 1)
  | none => (h, os, 0)

/-- N successive calls of SocketImpl::close() on the same handle,
accumulating the number of OS close calls performed. -/
def closeN : Nat → Handle → OsState → Handle × OsState × Nat
  | 0, h, os => (h, os, 0)
  | n + 1, h, os =>
    let (h1, os1, c) := close h os
    let (h2, os2, k) := closeN n h1 os1
    (h2, os2, c + k)

/-- SocketImpl::receiveBytes(Poco::Buffer<char>&, int, const Poco::Timespan&):
poll for readability; on readiness, grow the buffer to `available()`,
run the recv retry loop, classify a failure, then shrink the buffer to
the bytes received (the C++ comparison `rc < buffer.size()` converts a
negative `rc` to a huge size_t, so no resize happens after a swallowed
would-block).  If poll reports not ready, return `rc = 0` untouched.
Returns (outcome, final buffer size, number of recv syscalls). -/
def receiveBytesTO (h : Handle) (bufSize : Nat) (pollReady : Bool)
    (avail : Nat) (trace : List SysRes) : Outcome × Nat × Nat :=
  match pollCheck h pollReady with
  | .error e => (.exc e, bufSize, 0)
  | .ok ready =>
    if ready then
      let bufSize1 := if bufSize < avail then avail else bufSize
      let (ex, k) := transferLoop h.blocking trace
      match ex with
      | .stuck => (.incomplete, bufSize1, k)
      | .ok n => (.ret n, if n < bufSize1 then n else bufSize1, k)
      | .fail c => (classifyFail h.blocking c, bufSize1, k)
    else (.ret 0, bufSize, 0)

/-- Result of one sendFileUnix call: bytes transferred (`rc >= 0`) or a
failure with the errno. -/
inductive SFRes where
  | xfer (n : Nat)
  | fail (code : Int)
deriving DecidableEq, Repr

/-- How sendFileNative finishes: total bytes sent, a raised exception, or
the syscall-oracle trace exhausted before the loop finished. -/
inductive SFOutcome where
  | done (sent : Int)
  | exc (e : Exc)
  | incomplete
deriving DecidableEq, Repr

/-- The accumulation loop of the Unix SocketImpl::sendFileNative:
`while (count > 0)` call sendFileUnix; a non-negative result advances
`sent`, `offset` and `count`; a negative result calls `error(errno)`
(which falls through when the errno translates to no exception, and the
loop then retries). -/
def sendFileNativeLoop (sent offset count : Int) (trace : List SFRes) : SFOutcome :=
  if count ≤ 0 then .done sent
  else
    match trace with
    | [] => .incomplete
    | .xfer n :: rest => sendFileNativeLoop (sent + n) (offset + n) (count - n) rest
    | .fail c :: rest =>
      match error c "" with
      | some e => .exc e
      | none => sendFileNativeLoop sent offset count rest
termination_by trace.length
decreasing_by all_goals simp

/-- SocketImpl::sendFileNative (Unix branch): `count == 0` means the
remainder of the file from `offset`, then the accumulation loop. -/
def sendFileNative (fileSize offset count : Int) (trace : List SFRes) : SFOutcome :=
  let count1 := if count = 0 then fileSize - offset else count
  sendFileNativeLoop 0 offset count1 trace

/-- A trace of successful sendFileUnix transfers, each within the
remaining requested count, that together exhaust it. -/
def validXfers (count : Int) : List SFRes → Prop
  | [] => count ≤ 0
  | .xfer n :: rest => (n : Int) ≤ count ∧ validXfers (count - n) rest
  | .fail _ :: _ => False

/-- The read/send loop of SocketImpl::sendFileBlockwise.  State at entry:
`len` bytes already counted, requested `count`, current `bufferSize`,
`avail` bytes left in the stream after the read that produced `n`, and
`good` = the stream state left by that read (a read that returned fewer
bytes than requested sets failbit).  Loop:
`while (n > 0 && (count == 0 || len < count))`: account and send the `n`
bytes, clip `bufferSize` to the remaining requested count, then read
again if the stream is good, else `n = 0`. -/
def blockwiseLoop (len count : Int) (bufSize avail : Nat) (good : Bool) (n : Nat) : Int :=
  if 0 < n ∧ (count = 0 ∨ len < count) then
    let len1 := len + n
    let bufSize1 :=
      if 0 < count ∧ len1 < count ∧ (count - len1) < (bufSize : Int)
      then (count - len1).toNat else bufSize
    if good then
      let n1 := min bufSize1 avail
      blockwiseLoop len1 count bufSize1 (avail - n1) (decide (n1 = bufSize1)) n1
    else
      blockwiseLoop len1 count bufSize1 avail good 0
  else len
termination_by avail + (if 0 < n then 1 else 0)
decreasing_by
  · rename_i h _
    have hn : 0 < n := h.1
    simp only [hn, if_pos]
    split_ifs <;> omega
  · rename_i h _
    have hn : 0 < n := h.1
    simp only [hn, if_pos]
    split_ifs <;> omega

/-- SocketImpl::sendFileBlockwise: seek to `offset` (leaving
`fileSize - offset` bytes available), start with an 8192-byte buffer
clipped to `count` when `0 < count < 8192`, do the initial read, then the
loop.  Returns the total bytes moved. -/
def sendFileBlockwise (fileSize offset : Nat) (count : Int) : Int :=
  let avail := fileSize - offset
  let bufSize := if 0 < count ∧ count < 8192 then count.toNat else 8192
  let n := min bufSize avail
  blockwiseLoop 0 count bufSize (avail - n) (decide (n = bufSize)) n

/-- The three ways SocketImpl::sendFile can go on a POCO_HAVE_SENDFILE
build: the immediate local NetException for a non-blocking handle, the
chunked fallback, or the native zero-copy path. -/
inductive SendFileRes where
  | exc (e : Exc)
  | blockwise (sent : Int)
  | native (r : SFOutcome)
deriving DecidableEq, Repr

/-- SocketImpl::sendFile(FileInputStream&, std::streamoff, std::streamsize)
on a POCO_HAVE_SENDFILE build: throw a local NetException for a
non-blocking handle before any syscall; use the chunked fallback when the
transport reports itself encrypted (`secure()` is a virtual capability
query, passed as an oracle), else the native zero-copy path. -/
def sendFile (h : Handle) (secure : Bool) (fileSize offset : Nat) (count : Int)
    (trace : List SFRes) : SendFileRes :=
  if getBlocking h = false then
    .exc ⟨.net, "sendFile() not supported for non-blocking sockets", "", 0⟩
  else if secure then .blockwise (sendFileBlockwise fileSize offset count)
  else .native (sendFileNative fileSize offset count trace)

end SocketImpl

open SocketImpl

/-- Helper: the saturating budget update never increases the remaining
time above the starting budget. -/
theorem remainingAfter_le (ws : List Nat) : ∀ t, remainingAfter t ws ≤ t := by
  induction ws with
  | nil => intro t; simp [remainingAfter]
  | cons w ws ih =>
    intro t
    have h := ih (if w < t then t - w else 0)
    calc remainingAfter t (w :: ws) ≤ (if w < t then t - w else 0) := h
    _ ≤ t := by split <;> omega

/-- Helper: when every elapsed wait stays within the budget handed to it,
the total elapsed time plus the final remaining budget equals the
original timeout. -/
theorem remainingAfter_boundedBy_sum (ws : List Nat) :
    ∀ t, boundedBy t ws → ws.sum + remainingAfter t ws = t := by
  induction ws with
  | nil => intro t _; simp [remainingAfter]
  | cons w ws ih =>
    intro t hb
    obtain ⟨hw, hb'⟩ := hb
    have hif : (if w < t then t - w else 0) = t - w := by split <;> omega
    have := ih (t - w) hb'
    simp only [remainingAfter, hif, List.sum_cons]
    omega

/-- Helper: a run of EINTR-interrupted waits steps the poll loop to the
same loop with the budget folded through the saturating update. -/
theorem pollLoop_intr_append (ws : List Nat) :
    ∀ t rest, pollLoop t (ws.map (fun w => WaitRes.errres POCO_EINTR w) ++ rest) =
      pollLoop (remainingAfter t ws) rest := by
  induction ws with
  | nil => intro t rest; simp [remainingAfter]
  | cons w ws ih =>
    intro t rest
    simp only [List.map_cons, List.cons_append, pollLoop, if_pos rfl, remainingAfter]
    exact ih _ rest

/-- C3: in poll's wait loop, every signal interruption subtracts that
wait's elapsed wall time from the remaining budget (saturating at zero)
before re-waiting, so as long as each wait stays within the budget passed
to it the cumulative elapsed wait never exceeds the caller's original
timeout; a wait failure whose errno is not EINTR leaves the loop and is
raised through the error translator. -/
theorem poll_interrupt_budget :
    (∀ (t : Nat) (ws : List Nat), boundedBy t ws →
      ws.sum + remainingAfter t ws = t ∧ ws.sum ≤ t) ∧
    (∀ (t : Nat) (ws : List Nat) (rest : List WaitRes),
      pollLoop t (ws.map (fun w => WaitRes.errres POCO_EINTR w) ++ rest) =
        pollLoop (remainingAfter t ws) rest) ∧
    (∀ (t : Nat) (c : Int) (w : Nat) (rest : List WaitRes) (e : Exc),
      c ≠ POCO_EINTR → error c "" = some e →
      pollLoop t (.errres c w :: rest) = .exc e) := by
  refine ⟨fun t ws hb => ?_, fun t ws rest => pollLoop_intr_append ws t rest,
    fun t c w rest e hc he => ?_⟩
  · have h := remainingAfter_boundedBy_sum ws t hb
    omega
  · simp [pollLoop, hc, he]

/-- Witness for poll_interrupt_budget at concrete inputs: budget 1000 with
interruptions of 300 and 500, and a wait failure with errno EACCES. -/
theorem poll_interrupt_budget_witness :
    ([300, 500].sum + remainingAfter 1000 [300, 500] = 1000 ∧ [300, 500].sum ≤ 1000) ∧
    pollLoop 700 ([300].map (fun w => WaitRes.errres POCO_EINTR w) ++ [.ready]) =
      pollLoop (remainingAfter 700 [300]) [.ready] ∧
    pollLoop 50 [.errres POCO_EACCES 7] = .exc ⟨.io, "Permission denied", "", POCO_EACCES⟩ :=
  ⟨poll_interrupt_budget.1 1000 [300, 500] (by simp [boundedBy]),
   poll_interrupt_budget.2.1 700 [300] [.ready],
   poll_interrupt_budget.2.2 50 POCO_EACCES 7 [] _ (by decide) (by decide)⟩

set_option maxHeartbeats 2000000 in
/-- C4: the error translator is a pure, total function of (code, context):
equal argument pairs give equal results, the explicit no-error code
returns without raising, and every code outside the enumerated cases
raises the generic I/O kind whose message is the formatted raw code and
which carries the context argument and the raw code. -/
theorem error_translator_pure_total :
    (∀ c₁ a₁ c₂ a₂, c₁ = c₂ → a₁ = a₂ → error c₁ a₁ = error c₂ a₂) ∧
    (∀ a, error POCO_ENOERR a = none) ∧
    (∀ c a, c ∉ enumeratedCodes → error c a = some ⟨.io, toString c, a, c⟩) := by
  refine ⟨fun c₁ a₁ c₂ a₂ hc ha => by rw [hc, ha], fun a => by simp [error], ?_⟩
  intro c a h
  have h' : ∀ x ∈ enumeratedCodes, c ≠ x := fun x hx hcx => h (hcx ▸ hx)
  have e00 := h' POCO_ENOERR (by decide)
  have e01 := h' POCO_ESYSNOTREADY (by decide)
  have e02 := h' POCO_ENOTINIT (by decide)
  have e03 := h' POCO_EINTR (by decide)
  have e04 := h' POCO_EACCES (by decide)
  have e05 := h' POCO_EFAULT (by decide)
  have e06 := h' POCO_EINVAL (by decide)
  have e07 := h' POCO_EMFILE (by decide)
  have e08 := h' POCO_EWOULDBLOCK (by decide)
  have e09 := h' POCO_EINPROGRESS (by decide)
  have e10 := h' POCO_EALREADY (by decide)
  have e11 := h' POCO_ENOTSOCK (by decide)
  have e12 := h' POCO_EDESTADDRREQ (by decide)
  have e13 := h' POCO_EMSGSIZE (by decide)
  have e14 := h' POCO_EPROTOTYPE (by decide)
  have e15 := h' POCO_ENOPROTOOPT (by decide)
  have e16 := h' POCO_EPROTONOSUPPORT (by decide)
  have e17 := h' POCO_ESOCKTNOSUPPORT (by decide)
  have e18 := h' POCO_ENOTSUP (by decide)
  have e19 := h' POCO_EPFNOSUPPORT (by decide)
  have e20 := h' POCO_EAFNOSUPPORT (by decide)
  have e21 := h' POCO_EADDRINUSE (by decide)
  have e22 := h' POCO_EADDRNOTAVAIL (by decide)
  have e23 := h' POCO_ENETDOWN (by decide)
  have e24 := h' POCO_ENETUNREACH (by decide)
  have e25 := h' POCO_ENETRESET (by decide)
  have e26 := h' POCO_ECONNABORTED (by decide)
  have e27 := h' POCO_ECONNRESET (by decide)
  have e28 := h' POCO_ENOBUFS (by decide)
  have e29 := h' POCO_EISCONN (by decide)
  have e30 := h' POCO_ENOTCONN (by decide)
  have e31 := h' POCO_ESHUTDOWN (by decide)
  have e32 := h' POCO_ETIMEDOUT (by decide)
  have e33 := h' POCO_ECONNREFUSED (by decide)
  have e34 := h' POCO_EHOSTDOWN (by decide)
  have e35 := h' POCO_EHOSTUNREACH (by decide)
  have e36 := h' UNIX_EPIPE (by decide)
  have e37 := h' UNIX_EBADF (by decide)
  have e38 := h' UNIX_ENOENT (by decide)
  simp only [error, e00, e01, e02, e03, e04, e05, e06, e07, e08, e09, e10,
    e11, e12, e13, e14, e15, e16, e17, e18, e19, e20, e21, e22, e23, e24,
    e25, e26, e27, e28, e29, e30, e31, e32, e33, e34, e35, e36, e37, e38,
    if_false]

/-- Witness for error_translator_pure_total: the no-error code, a
determinism instance, and the unlisted code 424242 falling to the
generic I/O case with code and context preserved. -/
theorem error_translator_pure_total_witness :
    error 5 "ctx" = error 5 "ctx" ∧
    error POCO_ENOERR "target" = none ∧
    error 424242 "target" = some ⟨.io, toString (424242 : Int), "target", 424242⟩ :=
  ⟨error_translator_pure_total.1 5 "ctx" 5 "ctx" rfl rfl,
   error_translator_pure_total.2.1 "target",
   error_translator_pure_total.2.2 424242 "target" (by decide)⟩

/-- C1 counterexample: connect(address, timeout) does not restore the
pre-call blocking mode for every pre-call mode.  A handle that is
non-blocking before the call (cached `_blocking` false, O_NONBLOCK set)
comes out of an immediately successful connect in blocking mode, because
every exit path runs `setBlocking(true)` unconditionally. -/
theorem connectTimeout_not_restore_nonblocking :
    (connectTimeout ⟨some 3, true, false, false, 0, 0⟩ "198.51.100.1:80" 9
        ⟨.ok 0, true, 0⟩).1.blocking ≠
      (Handle.blocking ⟨some 3, true, false, false, 0, 0⟩) ∧
    (connectTimeout ⟨some 3, true, false, false, 0, 0⟩ "198.51.100.1:80" 9
        ⟨.ok 0, true, 0⟩).1.osNonBlocking ≠
      (Handle.osNonBlocking ⟨some 3, true, false, false, 0, 0⟩) := by
  decide

/-- C1 amended: on every exit path (immediate connect success, success
after the poll wait, poll timeout, asynchronous connect failure) the
handle leaves connect(address, timeout) in blocking mode — both the OS
non-blocking flag and the cached `_blocking` field — so the pre-call mode
is restored exactly when the handle was blocking before the call. -/
theorem connectTimeout_leaves_blocking :
    ∀ (h : Handle) (addr : String) (newFd : Nat) (env : ConnEnv),
      ((connectTimeout h addr newFd env).1.blocking = true ∧
       (connectTimeout h addr newFd env).1.osNonBlocking = false) ∧
      (h.blocking = true → h.osNonBlocking = false →
        (connectTimeout h addr newFd env).1.blocking = h.blocking ∧
        (connectTimeout h addr newFd env).1.osNonBlocking = h.osNonBlocking) := by
  intro h addr newFd env
  have hfst : (connectTimeout h addr newFd env).1 =
      { (if h.sockfd = none then { h with sockfd := some newFd } else h) with
        osNonBlocking := false, blocking := true } := by
    cases hcb : connectTimeoutBody addr env <;>
      simp [connectTimeout, setBlocking, hcb]
  refine ⟨⟨?_, ?_⟩, fun hb ho => ⟨?_, ?_⟩⟩ <;> rw [hfst] <;> simp [hb, ho]

/-- Witness for connectTimeout_leaves_blocking: a handle that was
blocking before the call keeps its mode across the timeout exit path. -/
theorem connectTimeout_leaves_blocking_witness :
    ((connectTimeout ⟨some 3, false, true, false, 0, 0⟩ "a" 9
        ⟨.err POCO_EINPROGRESS, false, 0⟩).1.blocking = true ∧
     (connectTimeout ⟨some 3, false, true, false, 0, 0⟩ "a" 9
        ⟨.err POCO_EINPROGRESS, false, 0⟩).1.osNonBlocking = false) ∧
    ((connectTimeout ⟨some 3, false, true, false, 0, 0⟩ "a" 9
        ⟨.err POCO_EINPROGRESS, false, 0⟩).1.blocking =
      (Handle.blocking ⟨some 3, false, true, false, 0, 0⟩) ∧
     (connectTimeout ⟨some 3, false, true, false, 0, 0⟩ "a" 9
        ⟨.err POCO_EINPROGRESS, false, 0⟩).1.osNonBlocking =
      (Handle.osNonBlocking ⟨some 3, false, true, false, 0, 0⟩)) :=
  ⟨(connectTimeout_leaves_blocking ⟨some 3, false, true, false, 0, 0⟩ "a" 9
      ⟨.err POCO_EINPROGRESS, false, 0⟩).1,
   (connectTimeout_leaves_blocking ⟨some 3, false, true, false, 0, 0⟩ "a" 9
      ⟨.err POCO_EINPROGRESS, false, 0⟩).2 rfl rfl⟩

/-- Helper: on a blocking handle the transfer loop consumes any run of
EINTR failures and returns the first real result. -/
theorem transferLoop_replicate (k n : Nat) :
    transferLoop true (List.replicate k (.err POCO_EINTR) ++ [.ok n]) = (.ok n, k + 1) := by
  induction k with
  | zero => simp [transferLoop]
  | succ k ih =>
    simp [List.replicate_succ, transferLoop, ih]

/-- C2: error discipline of the transfer operations (sendBytes and
receiveBytes, single-buffer and scatter/gather forms, all sharing the
transferOp body): a blocking handle retries interrupted syscalls; a
non-blocking handle never retries, and a would-block errno is a
non-error (negative) return rather than an exception; a blocking handle
maps EAGAIN/ETIMEDOUT to TimeoutException; every other failing errno is
routed through the error translator. -/
theorem transfer_error_discipline :
    (∀ h pr tr, sendBytes h pr tr = transferOp h SELECT_WRITE pr tr ∧
       sendBytesVec h pr tr = transferOp h SELECT_WRITE pr tr ∧
       receiveBytes h pr tr = transferOp h SELECT_READ pr tr ∧
       receiveBytesVec h pr tr = transferOp h SELECT_READ pr tr) ∧
    (∀ (h : Handle) (fd : Nat) (mode : Nat) (pr : Bool) (k n : Nat),
      h.blocking = true → h.isBrokenTimeout = false → h.sockfd = some fd →
      transferOp h mode pr (List.replicate k (.err POCO_EINTR) ++ [.ok n]) = .ret n) ∧
    (∀ (h : Handle) (fd : Nat) (mode : Nat) (pr : Bool) (c : Int) (rest : List SysRes),
      h.blocking = false → h.sockfd = some fd →
      (transferOp h mode pr (.err c :: rest) = transferOp h mode pr [.err c]) ∧
      ((c = POCO_EAGAIN ∨ c = POCO_EWOULDBLOCK) →
        transferOp h mode pr (.err c :: rest) = .ret (-1))) ∧
    (∀ (h : Handle) (fd : Nat) (mode : Nat) (pr : Bool) (c : Int) (rest : List SysRes),
      h.blocking = true → h.isBrokenTimeout = false → h.sockfd = some fd →
      (c = POCO_EAGAIN ∨ c = POCO_ETIMEDOUT) →
      transferOp h mode pr (.err c :: rest) = .exc (timeoutCodeExc c)) ∧
    (∀ (h : Handle) (fd : Nat) (mode : Nat) (pr : Bool) (c : Int) (rest : List SysRes) (e : Exc),
      h.isBrokenTimeout = false → h.sockfd = some fd →
      c ≠ POCO_EINTR → c ≠ POCO_EAGAIN → c ≠ POCO_ETIMEDOUT →
      error c "" = some e →
      transferOp h mode pr (.err c :: rest) = .exc e) := by
  refine ⟨fun h pr tr => ⟨rfl, rfl, rfl, rfl⟩, ?_, ?_, ?_, ?_⟩
  · intro h fd mode pr k n hb hbt hfd
    simp [transferOp, hb, hbt, checkBrokenTimeout, hfd, transferLoop_replicate]
  · intro h fd mode pr c rest hb hfd
    constructor
    · simp [transferOp, hb, hfd, transferLoop]
    · intro hc
      simp [transferOp, hb, hfd, transferLoop, classifyFail, hc]
  · intro h fd mode pr c rest hb hbt hfd hc
    have hni : ¬(c = POCO_EINTR) := by
      rcases hc with hc | hc <;> simp [hc, POCO_EAGAIN, POCO_EINTR, POCO_ETIMEDOUT]
    simp [transferOp, hb, hbt, checkBrokenTimeout, hfd, transferLoop, hni,
      classifyFail, hc]
  · intro h fd mode pr c rest e hbt hfd hni ha ht he
    have hwb : ¬(c = POCO_EWOULDBLOCK) := by
      simpa [POCO_EWOULDBLOCK, POCO_EAGAIN] using ha
    simp [transferOp, hbt, checkBrokenTimeout, hfd, transferLoop, hni,
      classifyFail, ha, hwb, ht, he]

/-- Witness for transfer_error_discipline: a blocking handle retrying two
interrupts, a non-blocking would-block swallowed, a blocking EAGAIN
timeout, and an ECONNRESET routed through the translator. -/
theorem transfer_error_discipline_witness :
    (sendBytes ⟨some 3, false, true, false, 0, 0⟩ true [.ok 5] =
      transferOp ⟨some 3, false, true, false, 0, 0⟩ SELECT_WRITE true [.ok 5]) ∧
    transferOp ⟨some 3, false, true, false, 0, 0⟩ SELECT_WRITE true
      (List.replicate 2 (.err POCO_EINTR) ++ [.ok 7]) = .ret 7 ∧
    transferOp ⟨some 3, true, false, false, 0, 0⟩ SELECT_WRITE true
      [.err POCO_EAGAIN, .ok 9] = .ret (-1) ∧
    transferOp ⟨some 3, false, true, false, 0, 0⟩ SELECT_READ true
      [.err POCO_EAGAIN] = .exc (timeoutCodeExc POCO_EAGAIN) ∧
    transferOp ⟨some 3, false, true, false, 0, 0⟩ SELECT_READ true
      [.err POCO_ECONNRESET] = .exc ⟨.connectionReset, "", "", POCO_ECONNRESET⟩ :=
  ⟨(transfer_error_discipline.1 ⟨some 3, false, true, false, 0, 0⟩ true [.ok 5]).1,
   transfer_error_discipline.2.1 ⟨some 3, false, true, false, 0, 0⟩ 3 SELECT_WRITE true
     2 7 rfl rfl rfl,
   (transfer_error_discipline.2.2.1 ⟨some 3, true, false, false, 0, 0⟩ 3 SELECT_WRITE true
     POCO_EAGAIN [.ok 9] rfl rfl).2 (Or.inl rfl),
   transfer_error_discipline.2.2.2.1 ⟨some 3, false, true, false, 0, 0⟩ 3 SELECT_READ true
     POCO_EAGAIN [] rfl rfl rfl (Or.inl rfl),
   transfer_error_discipline.2.2.2.2 ⟨some 3, false, true, false, 0, 0⟩ 3 SELECT_READ true
     POCO_ECONNRESET [] _ rfl rfl (by decide) (by decide) (by decide) (by decide)⟩

/-- C5 counterexample: sendTo on a handle with an unset descriptor does
not raise InvalidSocketException — it lazily creates the descriptor via
init(address.af()) inside the loop and performs the send (here returning
3 bytes), so the claim's list wrongly includes sendTo. -/
theorem sendTo_unset_no_invalidSocket :
    (sendTo ⟨none, false, true, false, 0, 0⟩ 7 [.ok 3]).2 = .ret 3 ∧
    (sendTo ⟨none, false, true, false, 0, 0⟩ 7 [.ok 3]).2 ≠ .exc invalidSocketExc ∧
    (sendTo ⟨none, false, true, false, 0, 0⟩ 7 [.ok 3]).1.sockfd = some 7 := by
  decide

/-- C5 amended: every listed data/control operation except sendTo raises
InvalidSocketException before any OS syscall when the descriptor is
unset (sendBytes, receiveBytes and their scatter/gather forms,
receiveFrom, sendUrgent, listen, all three shutdown variants, poll, and
the raw option accessors); sendTo instead lazily initializes a fresh
descriptor and proceeds exactly as on a handle already holding it. -/
theorem unset_handle_guards :
    (∀ (h : Handle) (mode : Nat) (pr : Bool) (tr : List SysRes), h.sockfd = none →
      transferOp h mode pr tr = .exc invalidSocketExc) ∧
    (∀ (h : Handle) (pr : Bool) (tr : List SysRes), h.sockfd = none →
      sendBytes h pr tr = .exc invalidSocketExc ∧
      sendBytesVec h pr tr = .exc invalidSocketExc ∧
      receiveBytes h pr tr = .exc invalidSocketExc ∧
      receiveBytesVec h pr tr = .exc invalidSocketExc ∧
      receiveFrom h pr tr = .exc invalidSocketExc) ∧
    (∀ (h : Handle) (r : SysRes), h.sockfd = none →
      sendUrgent h r = .error invalidSocketExc ∧
      listen h r = .error invalidSocketExc ∧
      shutdownOp h 0 r = .error invalidSocketExc ∧
      shutdownOp h 1 r = .error invalidSocketExc ∧
      shutdownOp h 2 r = .error invalidSocketExc) ∧
    (∀ (h : Handle) (level opt : Int) (r : SysRes), h.sockfd = none →
      setRawOption h level opt r = .error invalidSocketExc ∧
      getRawOption h level opt r = .error invalidSocketExc) ∧
    (∀ (h : Handle) (t mode : Nat) (env : PollEnv), h.sockfd = none →
      poll h t mode env = .exc invalidSocketExc) ∧
    (∀ (h : Handle) (newFd : Nat) (tr : List SysRes), h.sockfd = none →
      (sendTo h newFd tr).1.sockfd = some newFd ∧
      (sendTo h newFd tr).2 =
        (sendTo { h with sockfd := some newFd } newFd tr).2) := by
  have hguard : ∀ (h : Handle) (mode : Nat) (pr : Bool) (tr : List SysRes),
      h.sockfd = none → transferOp h mode pr tr = .exc invalidSocketExc := by
    intro h mode pr tr hfd
    by_cases hb : h.blocking
    · by_cases hbt : h.isBrokenTimeout
      · by_cases ht : (if mode = SELECT_READ then h.recvTimeout else h.sndTimeout) ≠ 0
        · simp [transferOp, hb, checkBrokenTimeout, hbt, ht, pollCheck, hfd]
        · simp [transferOp, hb, checkBrokenTimeout, hbt, ht, hfd]
      · simp [transferOp, hb, checkBrokenTimeout, hbt, hfd]
    · simp [transferOp, hb, hfd]
  refine ⟨hguard, fun h pr tr hfd => ?_, fun h r hfd => ?_,
    fun h level opt r hfd => ?_, fun h t mode env hfd => ?_,
    fun h newFd tr hfd => ?_⟩
  · exact ⟨hguard h _ pr tr hfd, hguard h _ pr tr hfd, hguard h _ pr tr hfd,
      hguard h _ pr tr hfd, hguard h _ pr tr hfd⟩
  · exact ⟨by simp [sendUrgent, hfd], by simp [SocketImpl.listen, hfd],
      by simp [shutdownOp, hfd], by simp [shutdownOp, hfd], by simp [shutdownOp, hfd]⟩
  · exact ⟨by simp [setRawOption, hfd], by simp [getRawOption, hfd]⟩
  · simp [poll, hfd]
  · simp [sendTo, hfd]

/-- Witness for unset_handle_guards applied to a concrete unset handle:
sendBytes and poll raise InvalidSocketException, and sendTo installs a
fresh descriptor instead. -/
theorem unset_handle_guards_witness :
    transferOp ⟨none, false, true, true, 5, 5⟩ SELECT_WRITE false [.ok 3] =
      .exc invalidSocketExc ∧
    poll ⟨none, false, true, false, 0, 0⟩ 100 SELECT_READ ⟨true, 0, true, 0, [.ready]⟩ =
      .exc invalidSocketExc ∧
    (sendTo ⟨none, false, true, false, 0, 0⟩ 7 [.ok 3]).1.sockfd = some 7 :=
  ⟨unset_handle_guards.1 ⟨none, false, true, true, 5, 5⟩ SELECT_WRITE false [.ok 3] rfl,
   unset_handle_guards.2.2.2.2.1 ⟨none, false, true, false, 0, 0⟩ 100 SELECT_READ
     ⟨true, 0, true, 0, [.ready]⟩ rfl,
   (unset_handle_guards.2.2.2.2.2 ⟨none, false, true, false, 0, 0⟩ 7 [.ok 3] rfl).1⟩

/-- C7: sendFile on a non-blocking handle raises the local NetException
immediately — for every choice of syscall oracle, so no syscall outcome
can influence or be reached by the call — and a transport that reports
itself encrypted is always routed to the chunked fallback, never the
zero-copy primitive. -/
theorem sendFile_nonblocking_secure :
    (∀ (h : Handle) (secure : Bool) (fileSize offset : Nat) (count : Int)
        (tr : List SFRes),
      getBlocking h = false →
      sendFile h secure fileSize offset count tr =
        .exc ⟨.net, "sendFile() not supported for non-blocking sockets", "", 0⟩) ∧
    (∀ (h : Handle) (fileSize offset : Nat) (count : Int) (tr : List SFRes),
      getBlocking h = true →
      sendFile h true fileSize offset count tr =
        .blockwise (sendFileBlockwise fileSize offset count)) := by
  constructor
  · intro h secure fileSize offset count tr hb
    simp [sendFile, hb]
  · intro h fileSize offset count tr hb
    simp [sendFile, hb]

/-- Witness for sendFile_nonblocking_secure: a non-blocking handle is
rejected locally; a blocking handle on a secure transport takes the
chunked fallback. -/
theorem sendFile_nonblocking_secure_witness :
    sendFile ⟨some 3, true, false, false, 0, 0⟩ false 100 0 0 [.xfer 100] =
      .exc ⟨.net, "sendFile() not supported for non-blocking sockets", "", 0⟩ ∧
    sendFile ⟨some 3, false, true, false, 0, 0⟩ true 100 0 0 [] =
      .blockwise (sendFileBlockwise 100 0 0) :=
  ⟨sendFile_nonblocking_secure.1 ⟨some 3, true, false, false, 0, 0⟩ false 100 0 0
     [.xfer 100] rfl,
   sendFile_nonblocking_secure.2 ⟨some 3, false, true, false, 0, 0⟩ 100 0 0 [] rfl⟩

/-- Helper: closing a handle whose descriptor is already unset changes
nothing and performs no OS close, for any number of repetitions. -/
theorem closeN_unset (n : Nat) :
    ∀ (h : Handle) (os : OsState), h.sockfd = none →
      closeN n h os = (h, os, 0) := by
  induction n with
  | zero => intro h os _; rfl
  | succ n ih =>
    intro h os hfd
    simp [closeN, close, hfd, ih h os hfd]

/-- C8: close() is idempotent: the first call unsets the descriptor and
closes it at the OS; any further calls (any N) change neither the handle
nor the OS state and perform no OS close call; descriptors other than the
handle's own are untouched.  (The embedded close returns normally by
construction — its type has no exception component, matching the C++
body, which contains no throw.) -/
theorem close_idempotent :
    ∀ (h : Handle) (os : OsState) (n : Nat),
      (close h os).1.sockfd = none ∧
      close (close h os).1 (close h os).2.1 = ((close h os).1, (close h os).2.1, 0) ∧
      closeN (n + 1) h os = close h os ∧
      (∀ fd', fd' ∈ os.openFds → (∀ f, h.sockfd = some f → fd' ≠ f) →
        fd' ∈ (close h os).2.1.openFds) := by
  intro h os n
  match hfd : h.sockfd with
  | none =>
    refine ⟨by simp [close, hfd], by simp [close, hfd], ?_, ?_⟩
    · have h1 := closeN_unset (n + 1) h os hfd
      simp [h1, close, hfd]
    · intro fd' hmem _
      simp [close, hfd]
      exact hmem
  | some f =>
    have h1 : (close h os).1.sockfd = none := by simp [close, hfd]
    refine ⟨h1, by simp [close, hfd], ?_, ?_⟩
    · have h2 := closeN_unset n (close h os).1 (close h os).2.1 h1
      simp only [closeN]
      simp only [close, hfd] at h2 ⊢
      simp [h2]
    · intro fd' hmem hne
      simp only [close, hfd]
      exact List.mem_erase_of_ne (hne f rfl) |>.mpr hmem

/-- Witness for close_idempotent at a concrete handle and OS state:
three calls behave as one, and the unrelated descriptors 1 and 9
survive. -/
theorem close_idempotent_witness :
    (close ⟨some 5, false, true, false, 0, 0⟩ ⟨[1, 5, 9]⟩).1.sockfd = none ∧
    closeN 3 ⟨some 5, false, true, false, 0, 0⟩ ⟨[1, 5, 9]⟩ =
      close ⟨some 5, false, true, false, 0, 0⟩ ⟨[1, 5, 9]⟩ ∧
    9 ∈ (close ⟨some 5, false, true, false, 0, 0⟩ ⟨[1, 5, 9]⟩).2.1.openFds :=
  ⟨(close_idempotent ⟨some 5, false, true, false, 0, 0⟩ ⟨[1, 5, 9]⟩ 2).1,
   (close_idempotent ⟨some 5, false, true, false, 0, 0⟩ ⟨[1, 5, 9]⟩ 2).2.2.1,
   (close_idempotent ⟨some 5, false, true, false, 0, 0⟩ ⟨[1, 5, 9]⟩ 2).2.2.2 9
     (by decide) (fun f hf => by simp at hf; omega)⟩

/-- C9: in the convenience receiveBytes(buffer, flags, timeout), a poll
that does not report the descriptor readable makes the call return 0
with no exception, no recv syscall performed and the buffer left at its
size (the `rc = 0` initialisation is returned untouched); and an orderly
peer shutdown (recv returning 0 after a successful poll) also yields
return value 0 — so the return value alone cannot distinguish the two. -/
theorem receiveBytesTO_timeout_zero :
    (∀ (h : Handle) (fd bufSize avail : Nat) (tr : List SysRes),
      h.sockfd = some fd →
      receiveBytesTO h bufSize false avail tr = (.ret 0, bufSize, 0)) ∧
    (∀ (h : Handle) (fd bufSize avail : Nat),
      h.sockfd = some fd →
      (receiveBytesTO h bufSize true avail [.ok 0]).1 = .ret 0) := by
  constructor
  · intro h fd bufSize avail tr hfd
    simp [receiveBytesTO, pollCheck, hfd]
  · intro h fd bufSize avail hfd
    simp [receiveBytesTO, pollCheck, hfd, transferLoop]

/-- Witness for receiveBytesTO_timeout_zero: with descriptor 3 and buffer
size 10, a not-ready poll returns (0, size 10, no syscalls), and a peer
shutdown read also returns 0. -/
theorem receiveBytesTO_timeout_zero_witness :
    receiveBytesTO ⟨some 3, false, true, false, 0, 0⟩ 10 false 50 [.ok 4] =
      (.ret 0, 10, 0) ∧
    (receiveBytesTO ⟨some 3, false, true, false, 0, 0⟩ 10 true 50 [.ok 0]).1 = .ret 0 :=
  ⟨receiveBytesTO_timeout_zero.1 ⟨some 3, false, true, false, 0, 0⟩ 3 10 50 [.ok 4] rfl,
   receiveBytesTO_timeout_zero.2 ⟨some 3, false, true, false, 0, 0⟩ 3 10 50 rfl⟩

/-- C10: under timeout emulation, the pre-transfer readiness poll runs
exactly when the handle is blocking, the broken-timeout flag is set and
the stored timeout for the direction is non-zero; a zero stored timeout
skips the poll entirely and checkBrokenTimeout returns without raising,
so sendBytes proceeds straight to the (possibly indefinitely blocking)
transfer syscall exactly as if emulation were inactive, independent of
any poll outcome. -/
theorem brokenTimeout_poll_guard :
    (∀ (h : Handle) (mode : Nat) (pr : Bool),
      (checkBrokenTimeout h mode pr).2 =
        (h.isBrokenTimeout &&
          !(decide ((if mode = SELECT_READ then h.recvTimeout else h.sndTimeout) = 0)))) ∧
    (∀ (h : Handle) (pr : Bool), sendBytesPolled h pr =
      (h.blocking && (h.isBrokenTimeout && !(decide (h.sndTimeout = 0))))) ∧
    (∀ (h : Handle) (mode : Nat) (pr : Bool),
      h.isBrokenTimeout = true →
      (if mode = SELECT_READ then h.recvTimeout else h.sndTimeout) = 0 →
      checkBrokenTimeout h mode pr = (.ok (), false)) ∧
    (∀ (h : Handle) (pr pr' : Bool) (tr : List SysRes),
      h.isBrokenTimeout = true → h.sndTimeout = 0 →
      sendBytes h pr tr = sendBytes { h with isBrokenTimeout := false } pr' tr) := by
  have hmain : ∀ (h : Handle) (mode : Nat) (pr : Bool),
      (checkBrokenTimeout h mode pr).2 =
        (h.isBrokenTimeout &&
          !(decide ((if mode = SELECT_READ then h.recvTimeout else h.sndTimeout) = 0))) := by
    intro h mode pr
    by_cases hbt : h.isBrokenTimeout
    · by_cases ht : (if mode = SELECT_READ then h.recvTimeout else h.sndTimeout) = 0
      · simp [checkBrokenTimeout, hbt, ht]
      · by_cases hfd : h.sockfd = none
        · simp [checkBrokenTimeout, hbt, ht, pollCheck, hfd]
        · simp [checkBrokenTimeout, hbt, ht, pollCheck, hfd]
    · simp [checkBrokenTimeout, hbt]
  refine ⟨hmain, ?_, ?_, ?_⟩
  · intro h pr
    have hw : ¬(SELECT_WRITE = SELECT_READ) := by decide
    simp [sendBytesPolled, hmain h SELECT_WRITE pr, hw]
  · intro h mode pr hbt ht
    simp [checkBrokenTimeout, hbt, ht]
  · intro h pr pr' tr hbt ht
    have hw : ¬(SELECT_WRITE = SELECT_READ) := by decide
    simp [sendBytes, transferOp, checkBrokenTimeout, hbt, ht, hw]

/-- Witness for brokenTimeout_poll_guard: with emulation active and a
zero send timeout, no poll happens and sendBytes ignores the poll
oracle. -/
theorem brokenTimeout_poll_guard_witness :
    (checkBrokenTimeout ⟨some 3, false, true, true, 0, 7⟩ SELECT_WRITE false).2 =
      ((⟨some 3, false, true, true, 0, 7⟩ : Handle).isBrokenTimeout &&
        !(decide ((if SELECT_WRITE = SELECT_READ then
          (⟨some 3, false, true, true, 0, 7⟩ : Handle).recvTimeout else
          (⟨some 3, false, true, true, 0, 7⟩ : Handle).sndTimeout) = 0))) ∧
    checkBrokenTimeout ⟨some 3, false, true, true, 0, 7⟩ SELECT_WRITE false =
      (.ok (), false) ∧
    sendBytes ⟨some 3, false, true, true, 0, 7⟩ false [.ok 5] =
      sendBytes ⟨some 3, false, true, false, 0, 7⟩ true [.ok 5] :=
  ⟨brokenTimeout_poll_guard.1 ⟨some 3, false, true, true, 0, 7⟩ SELECT_WRITE false,
   brokenTimeout_poll_guard.2.2.1 ⟨some 3, false, true, true, 0, 7⟩ SELECT_WRITE false
     rfl (by decide),
   brokenTimeout_poll_guard.2.2.2 ⟨some 3, false, true, true, 0, 7⟩ false true [.ok 5]
     rfl rfl⟩

/-- Helper: over a trace of successful transfers that respect and exhaust
the remaining count, the native sendfile loop accumulates exactly the
requested count on top of what was already sent. -/
theorem sendFileNativeLoop_valid :
    ∀ (trace : List SFRes) (sent offset count : Int), validXfers count trace →
      sendFileNativeLoop sent offset count trace = .done (sent + max count 0) := by
  intro trace
  induction trace with
  | nil =>
    intro sent offset count hv
    simp only [validXfers] at hv
    rw [sendFileNativeLoop]
    simp only [hv, if_pos, SFOutcome.done.injEq]
    omega
  | cons head rest ih =>
    intro sent offset count hv
    match head with
    | .xfer n =>
      simp only [validXfers] at hv
      obtain ⟨hn, hrest⟩ := hv
      by_cases hc : count ≤ 0
      · rw [sendFileNativeLoop]
        simp only [hc, if_pos, SFOutcome.done.injEq]
        omega
      · rw [sendFileNativeLoop]
        simp only [hc, if_neg, if_false]
        rw [ih (sent + n) (offset + n) (count - n) hrest]
        simp only [SFOutcome.done.injEq]
        omega
    | .fail c =>
      simp only [validXfers] at hv

theorem blockwise_zero (B : Nat) (hB : 0 < B) :
    ∀ (avail : Nat) (len : Int) (good : Bool) (n : Nat),
      blockwiseLoop len 0 B avail good n =
        len + (if 0 < n then (n : Int) + (if good then (avail : Int) else 0) else 0) := by
  intro avail
  induction avail using Nat.strong_induction_on with
  | _ avail ih =>
    intro len good n
    rcases Nat.eq_zero_or_pos n with hn | hn
    · subst hn
      rw [blockwiseLoop]
      simp
    · rw [blockwiseLoop]
      rw [if_pos ⟨hn, Or.inl rfl⟩]
      simp only [lt_self_iff_false, false_and, dite_false, if_false]
      cases good with
      | false =>
        simp only [Bool.false_eq_true, if_false]
        rw [blockwiseLoop]
        simp [hn]
      | true =>
        simp only [if_true]
        rcases Nat.eq_zero_or_pos avail with h0 | h0
        · subst h0
          simp only [Nat.min_zero, Nat.sub_zero]
          rw [blockwiseLoop]
          simp [hn]
        · rcases Nat.lt_or_ge avail B with hav | hav
          · have hmin : B ⊓ avail = avail := by omega
            have hne : decide (avail = B) = false := by simp; omega
            rw [hmin, hne]
            rw [ih (avail - avail) (by omega) (len + n) false avail]
            simp [hn, h0]
            ring
          · have hmin : B ⊓ avail = B := by omega
            have heq : decide (B = B) = true := by simp
            rw [hmin, heq]
            rw [ih (avail - B) (by omega) (len + n) true B]
            simp only [hB, if_pos, if_true]
            push_cast [Nat.cast_sub hav]
            simp [hn]
            ring

theorem blockwise_pos (K : Int) (hK : 0 < K) :
    ∀ (avail : Nat) (len : Int) (B : Nat) (good : Bool) (n : Nat),
      0 < B → len + n ≤ K → K ≤ len + n + avail →
      (len + n < K → (0 < n ∧ good = true)) →
      blockwiseLoop len K B avail good n = K := by
  intro avail
  induction avail using Nat.strong_induction_on with
  | _ avail ih =>
    intro len B good n hB hle hge hinv
    rcases Nat.eq_zero_or_pos n with hn | hn
    · subst hn
      have hlen : len = K := by
        by_contra hne
        have hlt : len + (0:Nat) < K := lt_of_le_of_ne hle (by simpa using hne)
        exact absurd (hinv hlt).1 (by omega)
      rw [blockwiseLoop]
      simp [hlen]
    · have hlt0 : len < K := by
        omega
      rw [blockwiseLoop]
      rw [if_pos ⟨hn, Or.inr hlt0⟩]
      rcases eq_or_lt_of_le hle with heq | hlt
      · -- len + n = K: the loop exits on the next iteration check
        have hnotlt : ¬(len + (n:Int) < K) := by omega
        have hbufSize1 : ¬(0 < K ∧ len + (n:Int) < K ∧ K - (len + (n:Int)) < (B:Int)) := by
          intro hc
          exact hnotlt hc.2.1
        simp only [hbufSize1, dite_false, if_false]
        cases good with
        | false =>
          simp only [Bool.false_eq_true, if_false]
          rw [blockwiseLoop]
          simp [hK, hlt0, hn, hnotlt]
          omega
        | true =>
          simp only [if_true]
          rw [blockwiseLoop]
          rw [if_neg (by push_neg; intro _; constructor <;> omega)]
          omega
      · -- len + n < K: the invariant gives good = true and the read refills n
        obtain ⟨-, hgood⟩ := hinv hlt
        subst hgood
        simp only [if_true]
        have havK : K - (len + (n:Int)) ≤ (avail:Int) := by omega
        by_cases hsb : K - (len + (n:Int)) < (B:Int)
        · have hcond : (0 < K ∧ len + (n:Int) < K ∧ K - (len + (n:Int)) < (B:Int)) :=
            ⟨hK, hlt, hsb⟩
          simp only [hcond, dite_true, if_pos, and_self]
          set B1 := (K - (len + (n:Int))).toNat with hB1def
          have hB1 : (B1:Int) = K - (len + (n:Int)) := by
            rw [hB1def]
            omega
          have hB1pos : 0 < B1 := by omega
          have hB1avail : B1 ≤ avail := by omega
          have hmin : B1 ⊓ avail = B1 := by omega
          rw [hmin]
          have hdec : decide (B1 = B1) = true := by simp
          rw [hdec]
          rw [ih (avail - B1) (by omega) (len + n) B1 true B1 hB1pos (by omega)
            (by omega) (fun _ => ⟨hB1pos, rfl⟩)]
        · have hcond : ¬(0 < K ∧ len + (n:Int) < K ∧ K - (len + (n:Int)) < (B:Int)) := by
            intro hc
            exact hsb hc.2.2
          simp only [hcond, dite_false, if_false]
          have hBle : (B:Int) ≤ K - (len + (n:Int)) := by omega
          have hBavail : B ≤ avail := by omega
          have hmin : B ⊓ avail = B := by omega
          rw [hmin]
          have hdec : decide (B = B) = true := by simp
          rw [hdec]
          rw [ih (avail - B) (by omega) (len + n) B true B hB (by omega)
            (by omega) (fun _ => ⟨hB, rfl⟩)]

/-- C6: sendFile byte-count exactness.  On the native zero-copy path,
a trace of per-call transfer results that stay within and exhaust the
remaining count accumulates exactly K bytes when count = K > 0, and
exactly size - offset bytes when count = 0.  The chunked fallback
transmits exactly size - offset bytes when count = 0, and exactly K
bytes when count = K > 0 and the file holds at least K bytes past the
offset. -/
theorem sendFile_exact_counts :
    (∀ (fileSize offset K : Int) (tr : List SFRes), 0 < K → validXfers K tr →
      sendFileNative fileSize offset K tr = .done K) ∧
    (∀ (fileSize offset : Int) (tr : List SFRes), offset ≤ fileSize →
      validXfers (fileSize - offset) tr →
      sendFileNative fileSize offset 0 tr = .done (fileSize - offset)) ∧
    (∀ (fileSize offset : Nat),
      sendFileBlockwise fileSize offset 0 = ((fileSize - offset : Nat) : Int)) ∧
    (∀ (fileSize offset : Nat) (K : Int), 0 < K →
      K ≤ ((fileSize - offset : Nat) : Int) →
      sendFileBlockwise fileSize offset K = K) := by
  refine ⟨?_, ?_, ?_, ?_⟩
  · intro fileSize offset K tr hK hv
    unfold sendFileNative
    have hne : ¬(K = 0) := by omega
    simp only [hne, if_false]
    rw [sendFileNativeLoop_valid tr 0 offset K hv]
    simp only [SFOutcome.done.injEq]
    omega
  · intro fileSize offset tr hle hv
    unfold sendFileNative
    rw [if_pos rfl]
    rw [sendFileNativeLoop_valid tr 0 offset (fileSize - offset) hv]
    simp only [SFOutcome.done.injEq]
    omega
  · intro fileSize offset
    unfold sendFileBlockwise
    simp only [lt_self_iff_false, false_and, if_false]
    rcases Nat.lt_or_ge (fileSize - offset) 8192 with hav | hav
    · have hmin : min 8192 (fileSize - offset) = fileSize - offset := by omega
      rw [hmin]
      rcases Nat.eq_zero_or_pos (fileSize - offset) with h0 | h0
      · rw [h0]
        rw [blockwiseLoop]
        simp [h0]
      · have hdec : decide (fileSize - offset = 8192) = false := by simp; omega
        rw [hdec, blockwise_zero 8192 (by omega)]
        simp [h0]
    · have hmin : min 8192 (fileSize - offset) = 8192 := by omega
      rw [hmin]
      have hdec : decide ((8192:Nat) = 8192) = true := by simp
      rw [hdec, blockwise_zero 8192 (by omega)]
      have : (0:Nat) < 8192 := by omega
      simp only [this, if_pos, if_true]
      push_cast [Nat.cast_sub hav]
      ring
  · intro fileSize offset K hK hKavail
    unfold sendFileBlockwise
    by_cases hsmall : K < 8192
    · have hc : (0 < K ∧ K < 8192) := ⟨hK, hsmall⟩
      simp only [hc, and_self, if_pos, if_true, hK, hsmall]
      have hmin : min K.toNat (fileSize - offset) = K.toNat := by omega
      rw [hmin]
      have hdec : decide (K.toNat = K.toNat) = true := by simp
      rw [hdec]
      exact blockwise_pos K hK (fileSize - offset - K.toNat) 0 K.toNat true K.toNat
        (by omega) (by omega) (by omega) (fun _ => ⟨by omega, rfl⟩)
    · have hc : ¬(0 < K ∧ K < 8192) := fun hc => hsmall hc.2
      simp only [hc, if_false]
      have hmin : min 8192 (fileSize - offset) = 8192 := by omega
      rw [hmin]
      have hdec : decide ((8192:Nat) = 8192) = true := by simp
      rw [hdec]
      exact blockwise_pos K hK (fileSize - offset - 8192) 0 8192 true 8192
        (by omega) (by omega) (by omega) (fun _ => ⟨by omega, rfl⟩)

/-- Witness for sendFile_exact_counts: a 100-byte file sent natively as
10+30 bytes for count 40 and as 90 bytes from offset 10 for count 0, and
the fallback moving 70 bytes from offset 30 of a 100-byte file and 9000
bytes of a 20000-byte file. -/
theorem sendFile_exact_counts_witness :
    sendFileNative 100 0 40 [.xfer 10, .xfer 30] = .done 40 ∧
    sendFileNative 100 10 0 [.xfer 90] = .done (100 - 10) ∧
    sendFileBlockwise 100 30 0 = (((100:Nat) - 30 : Nat) : Int) ∧
    sendFileBlockwise 20000 0 9000 = 9000 :=
  ⟨sendFile_exact_counts.1 100 0 40 [.xfer 10, .xfer 30] (by norm_num)
     (by norm_num [validXfers]),
   sendFile_exact_counts.2.1 100 10 [.xfer 90] (by norm_num)
     (by norm_num [validXfers]),
   sendFile_exact_counts.2.2.1 100 30,
   sendFile_exact_counts.2.2.2 20000 0 9000 (by norm_num) (by norm_num)⟩
